import Mathlib

/-!
Verification model of the interview-coder Electron application.

The definitions below are a shallow embedding of the TypeScript sources:
`electron/main.ts` (class AppState), `electron/shortcuts.ts`
(class ShortcutsHelper), `electron/WindowHelper.ts`, `electron/preload.ts`
(the IPC bridge subscriptions) and the ProcessingHelper API functions
(processTextQuery, extractProblemInfo, generateSolutionResponses,
debugSolutionResponses).  JavaScript objects become structures, class
fields become structure fields, and methods become state-passing
functions.  Events sent to the renderer are modelled as explicit lists
of emissions.  Parts of the repository that are referenced but whose
source file is absent (ScreenshotHelper, the ProcessingHelper class)
are modelled from the specification and marked as such in their doc
comments.
-/

namespace InterviewCoder

/-- The `view` field of AppState: `"queue" | "solutions"` (main.ts). -/
inductive View where
  | queue
  | solutions
  deriving DecidableEq

/-- The `mode` field of AppState: `"screenshot" | "text"` (main.ts). -/
inductive Mode where
  | screenshot
  | text
  deriving DecidableEq

/-- The `problemInfo` field of AppState (main.ts).  Only the fact that it
is present or `null` matters to the claims; its payload is kept as the
extracted problem statement. -/
structure ProblemInfo where
  problem_statement : String
  deriving DecidableEq

/-- The mutable fields of the AppState singleton (main.ts) together with
the two screenshot queues owned by its ScreenshotHelper and the
ScreenshotHelper's own mirrored view field, plus the coordinator's
in-flight-request flag. -/
structure AppStateM where
  view : View
  mode : Mode
  textQuery : String
  problemInfo : Option ProblemInfo
  hasDebugged : Bool
  screenshotQueue : List String
  extraScreenshotQueue : List String
  screenshotHelperView : View
  inFlight : Bool
  deriving DecidableEq

/-- `AppState.setView` (main.ts): sets the view and forwards it to the
ScreenshotHelper. -/
def setView (v : View) (s : AppStateM) : AppStateM :=
  { s with view := v, screenshotHelperView := v }

/-- Modelled from the spec: `ProcessingHelper.cancelOngoingRequests` is
not under src/ (only its caller in shortcuts.ts is).  Per the spec the
reset action must "cancel any in-flight request"; cancellation clears
the in-flight request handle and touches nothing else. -/
def cancelOngoingRequests (s : AppStateM) : AppStateM :=
  { s with inFlight := false }

/-- Modelled from the spec: `ScreenshotHelper.clearQueues` is not under
src/ (only its caller `AppState.clearQueues` in main.ts is).  Per the
spec, "Clearing resets both queues to empty". -/
def screenshotHelperClearQueues (s : AppStateM) : AppStateM :=
  { s with screenshotQueue := [], extraScreenshotQueue := [] }

/-- `AppState.clearQueues` (main.ts, lines 175-183): clears the helper's
queues, clears the problem info, and resets the view to `"queue"`. -/
def clearQueues (s : AppStateM) : AppStateM :=
  let s1 := screenshotHelperClearQueues s
  let s2 := { s1 with problemInfo := none }
  setView View.queue s2

/-- An event sent to the renderer (`webContents.send`), paired with the
application state at the moment the event is sent. -/
structure Emission where
  channel : String
  stateAtSend : AppStateM
  deriving DecidableEq

/-- The `CommandOrControl+R` shortcut handler (shortcuts.ts, lines
61-83): cancel ongoing requests, clear the queues, set the view to
`"queue"`, then send `"reset-view"` to the renderer if a main window
exists and is not destroyed.  `windowOk` stands for
`mainWindow && !mainWindow.isDestroyed()`. -/
def resetHandler (windowOk : Bool) (s : AppStateM) :
    AppStateM × List Emission :=
  let s1 := cancelOngoingRequests s
  let s2 := clearQueues s1
  let s3 := setView View.queue s2
  (s3, if windowOk then [{ channel := "reset-view", stateAtSend := s3 }] else [])

/-- JavaScript `String.prototype.trim`: removes leading and trailing
whitespace. -/
def jsTrim (s : String) : String :=
  String.mk (((s.data.dropWhile Char.isWhitespace).reverse.dropWhile
    Char.isWhitespace).reverse)

/-- The `CommandOrControl+Enter` shortcut handler (shortcuts.ts, lines
41-59).  In text mode with a whitespace-only query it sends the
`NO_QUERY` event (`"processing-no-query"`, main.ts line 81) when a main
window exists and returns without invoking
`processingHelper.processQuery`; otherwise it invokes `processQuery`
(whose effects lie outside this model).  The returned Boolean records
whether `processQuery` was invoked. -/
def solveHandler (windowOk : Bool) (s : AppStateM) :
    AppStateM × List String × Bool :=
  match s.mode with
  | Mode.text =>
      if jsTrim s.textQuery = "" then
        (s, if windowOk then ["processing-no-query"] else [], false)
      else
        (s, [], true)
  | Mode.screenshot => (s, [], true)

/-! ## Error mapping of the external LLM call operations (ProcessingHelper API file)

Each API function wraps its axios call in try/catch and rethrows an
`Error` whose message depends on `error.response?.status`.  The model
below reproduces each catch branch as a function from the caught axios
error to the thrown message. -/

/-- An axios error as inspected by the catch branches:
`error.response?.status`, `error.message`, and
`error.response?.data?.error?.message`. -/
structure AxiosErr where
  status : Option Nat
  message : String
  respErrorMessage : Option String
  deriving DecidableEq

/-- Catch branch of `processTextQuery` (ProcessingHelper API file, lines
108-114): status 429 throws "API Key out of credits", anything else
rethrows the original error. -/
def processTextQueryCatch (e : AxiosErr) : String :=
  if e.status = some 429 then "API Key out of credits" else e.message

/-- Catch branch of `extractProblemInfo` (lines 366-374): status 429
throws the out-of-credits message, anything else rethrows. -/
def extractProblemInfoCatch (e : AxiosErr) : String :=
  if e.status = some 429 then
    "API Key out of credits. Please refill your OpenAI API credits and try again."
  else e.message

/-- Catch branch of `generateSolutionResponses` (lines 465-473): status
429 throws the out-of-credits message, anything else throws a generic
message carrying the upstream error message. -/
def generateSolutionResponsesCatch (e : AxiosErr) : String :=
  if e.status = some 429 then
    "API Key out of credits. Please refill your OpenAI API credits and try again."
  else "Error generating solutions: " ++ e.message

/-- Catch branch of `debugSolutionResponses` (lines 669-687), reproduced
branch for branch: status 404, then status 401, then a second
(unreachable) test of status 401 carrying the out-of-credits message,
and otherwise a generic message carrying
`error.response?.data?.error?.message || error.message`.  Note the
source never tests for status 429. -/
def debugSolutionResponsesCatch (e : AxiosErr) : String :=
  if e.status = some 404 then
    "API endpoint not found. Please check the model name and URL."
  else if e.status = some 401 then
    "Authentication failed. Please check your API key."
  else if e.status = some 401 then
    "API Key out of credits. Please refill your OpenAI API credits and try again."
  else
    "OpenAI API error: " ++ (e.respErrorMessage.getD e.message)

/-- Whether a thrown message is the distinct out-of-credits condition
(all out-of-credits throws in the source begin with this text; the
generic failures carry the upstream message instead). -/
def isOutOfCreditsMessage (m : String) : Bool :=
  "API Key out of credits".data.isPrefixOf m.data

/-- A rate-limited axios error: HTTP 429 with axios's standard message
and no upstream body message. -/
def err429 : AxiosErr :=
  { status := some 429
    message := "Request failed with status code 429"
    respErrorMessage := none }

/-! ## Response parsing and the fenced-marker retry (C5)

`processTextQuery` parses the response content with `JSON.parse`; on
failure it strips occurrences of three apostrophes followed by a
language tag (`content.replace` with the global pattern of three
apostrophes then one or more ASCII letters) and parses once more.
`extractProblemInfo`, `generateSolutionResponses` and
`debugSolutionResponses` call `JSON.parse` exactly once with no
recovery.  `JSON.parse` itself is an external builtin and is modelled
as an explicit parser argument `parse` that either yields a parsed
value or fails. -/

/-- The apostrophe character (code point 39). -/
def aposChar : Char := Char.ofNat 39

/-- Drops the maximal run of ASCII letters at the head of the list
(the greedy letter part of the replace pattern). -/
def dropAlphaRun : List Char → List Char
  | [] => []
  | c :: rest => if c.isAlpha then dropAlphaRun rest else c :: rest

/-- `content.replace` with the global pattern (three apostrophes
followed by one or more ASCII letters, replaced by the empty string):
scans left to right, removing each match greedily.  Each step either
emits one character or removes a whole match, so the remaining input
shrinks at every step; the recursion is driven by a fuel argument that
the wrapper below sets to the input length, which always suffices. -/
def stripGo : Nat → List Char → List Char
  | 0, l => l
  | fuel + 1, l =>
      match l with
      | c1 :: c2 :: c3 :: rest =>
          if c1 = aposChar && c2 = aposChar && c3 = aposChar &&
              (match rest with
               | c :: _ => c.isAlpha
               | [] => false) then
            stripGo fuel (dropAlphaRun rest)
          else
            c1 :: stripGo fuel (c2 :: c3 :: rest)
      | l => l

/-- String version of the marker stripping. -/
def stripLangMarkers (s : String) : String :=
  String.mk (stripGo s.data.length s.data)

/-- Response handling of `processTextQuery` (lines 100-107): parse the
content; on failure strip the markers and parse exactly once more; on a
second failure the `JSON.parse` error propagates (modelled as an error
carrying the content passed to the failing parse). -/
def processTextQueryParse {α : Type} (parse : String → Option α)
    (content : String) : Except String α :=
  match parse content with
  | some v => Except.ok v
  | none =>
      let stripped := stripLangMarkers content
      match parse stripped with
      | some v => Except.ok v
      | none => Except.error stripped

/-- Response handling of `extractProblemInfo` (line 365): a single
`JSON.parse` of the function-call arguments, no recovery. -/
def extractProblemInfoParse {α : Type} (parse : String → Option α)
    (content : String) : Except String α :=
  match parse content with
  | some v => Except.ok v
  | none => Except.error content

/-- Response handling of `generateSolutionResponses` (lines 463-464): a
single `JSON.parse` of the content, no recovery. -/
def generateSolutionResponsesParse {α : Type} (parse : String → Option α)
    (content : String) : Except String α :=
  match parse content with
  | some v => Except.ok v
  | none => Except.error content

/-- Response handling of `debugSolutionResponses` (line 668): a single
`JSON.parse` of the function-call arguments, no recovery. -/
def debugSolutionResponsesParse {α : Type} (parse : String → Option α)
    (content : String) : Except String α :=
  match parse content with
  | some v => Except.ok v
  | none => Except.error content

/-! ## WindowHelper (WindowHelper.ts)

Positions and sizes are JavaScript numbers, modelled as rationals.
`Math.round(x)` is `⌊x + 1/2⌋` and `Math.floor`/`Math.ceil` on
rationals are the integer floor/ceiling.  A method call on a destroyed
`BrowserWindow` raises ("Object has been destroyed"); operations that
can reach such a call therefore return the state reached so far
together with an optional raised error. -/

/-- JavaScript `Math.round`: round half towards positive infinity. -/
def jsRound (q : ℚ) : ℤ := ⌊q + 1/2⌋

/-- A `BrowserWindow` as far as the helper observes it: destroyed flag,
bounds, focus and visibility. -/
structure BWindow where
  destroyed : Bool
  x : ℚ
  y : ℚ
  width : ℚ
  height : ℚ
  focused : Bool
  visible : Bool
  deriving DecidableEq

/-- The mutable fields of `WindowHelper`. -/
structure WHState where
  mainWindow : Option BWindow
  isWindowVisible : Bool
  wasFocused : Bool
  windowPosition : Option (ℚ × ℚ)
  windowSize : Option (ℚ × ℚ)
  screenWidth : Nat
  screenHeight : Nat
  step : Nat
  currentX : ℚ
  currentY : ℚ
  deriving DecidableEq

/-- `createWindow` (line 138) initialises the movement step to
`Math.floor(this.screenWidth / 10)`. -/
def createWindowStep (screenWidth : Nat) : Nat := screenWidth / 10

/-- The allowed maximum width computed by `setWindowDimensions` (lines
57-59): `Math.floor(workArea.width * (hasDebugged ? 0.75 : 0.4))`.  The
float multiplication is modelled as the exact rational product; for any
physically representable screen width the double rounding of `w * 0.4`
cannot cross an integer boundary, and `0.75` is exactly representable,
so the floors agree with `w * 3 / 4` and `w * 2 / 5` in `Nat`
arithmetic. -/
def maxAllowedWidth (hasDebugged : Bool) (workAreaWidth : Nat) : Nat :=
  if hasDebugged then workAreaWidth * 3 / 4 else workAreaWidth * 2 / 5

/-- `WindowHelper.setWindowDimensions` (lines 42-93): no-op when the
window is absent or destroyed; otherwise clamps the requested width to
the allowed maximum, enforces the 100-pixel minimum height, keeps the
horizontal position unless it would push the window off screen, applies
the bounds to the window and mirrors them into the helper fields.
`hasDebugged` is read from the AppState and `workAreaWidth` from the
primary display. -/
def setWindowDimensions (hasDebugged : Bool) (workAreaWidth : Nat)
    (width height : ℚ) (s : WHState) : WHState :=
  match s.mainWindow with
  | none => s
  | some w =>
      if w.destroyed then s
      else
        let currentX := w.x
        let currentY := w.y
        let maxW : ℚ := (maxAllowedWidth hasDebugged workAreaWidth : ℚ)
        let newWidth := min (width + 32) maxW
        let newHeight : ℚ := (max (⌈height⌉ : ℤ) 100 : ℤ)
        let maxX := (workAreaWidth : ℚ) - newWidth
        let newX := min (max currentX 0) maxX
        { s with
            mainWindow := some { w with
              x := newX, y := currentY, width := newWidth, height := newHeight }
            windowPosition := some (newX, currentY)
            windowSize := some (newWidth, newHeight)
            currentX := newX }

/-- `WindowHelper.hideMainWindow` (lines 377-401): no-op when the window
is absent or destroyed; otherwise records the focus state, stores the
bounds, hides the window and clears the visibility flag. -/
def hideMainWindow (s : WHState) : WHState :=
  match s.mainWindow with
  | none => s
  | some w =>
      if w.destroyed then s
      else
        { s with
            wasFocused := w.focused
            windowPosition := some (w.x, w.y)
            windowSize := some (w.width, w.height)
            mainWindow := some { w with visible := false, focused := false }
            isWindowVisible := false }

/-- `WindowHelper.showMainWindow` (lines 403-442): no-op when the window
is absent or destroyed; otherwise restores the stored bounds when both
are present, shows the window without focusing it, and sets the
visibility flag. -/
def showMainWindow (s : WHState) : WHState :=
  match s.mainWindow with
  | none => s
  | some w =>
      if w.destroyed then s
      else
        let w2 :=
          match s.windowPosition, s.windowSize with
          | some (px, py), some (sw, sh) =>
              { w with x := px, y := py, width := sw, height := sh }
          | _, _ => w
        { s with
            mainWindow := some { w2 with visible := true }
            isWindowVisible := true }

/-- `WindowHelper.toggleMainWindow` (lines 444-450). -/
def toggleMainWindow (s : WHState) : WHState :=
  if s.isWindowVisible then hideMainWindow s else showMainWindow s

/-- `WindowHelper.moveWindowRight` (lines 453-472): no-op only when the
window reference is null (the destroyed flag is not checked); otherwise
updates `currentX` to `Math.min(screenWidth - halfWidth, currentX +
step)` and then calls `setPosition`, which raises on a destroyed
window.  The `Number(x) || 0` normalisation is the identity on
rationals. -/
def moveWindowRight (s : WHState) : WHState × Option String :=
  match s.mainWindow with
  | none => (s, none)
  | some w =>
      let windowWidth := (s.windowSize.map Prod.fst).getD 0
      let halfWidth := windowWidth / 2
      let newX := min ((s.screenWidth : ℚ) - halfWidth) (s.currentX + (s.step : ℚ))
      let s1 := { s with currentX := newX }
      if w.destroyed then (s1, some "Object has been destroyed")
      else
        ({ s1 with mainWindow := some { w with
            x := (jsRound newX : ℚ), y := (jsRound s1.currentY : ℚ) } }, none)

/-- `WindowHelper.moveWindowLeft` (lines 474-490): same shape, clamping
at `-halfWidth` on the left. -/
def moveWindowLeft (s : WHState) : WHState × Option String :=
  match s.mainWindow with
  | none => (s, none)
  | some w =>
      let windowWidth := (s.windowSize.map Prod.fst).getD 0
      let halfWidth := windowWidth / 2
      let newX := max (-halfWidth) (s.currentX - (s.step : ℚ))
      let s1 := { s with currentX := newX }
      if w.destroyed then (s1, some "Object has been destroyed")
      else
        ({ s1 with mainWindow := some { w with
            x := (jsRound newX : ℚ), y := (jsRound s1.currentY : ℚ) } }, none)

/-- `WindowHelper.moveWindowDown` (lines 492-511): steps `currentY` by
`this.step` (initialised from the screen width), clamped at
`screenHeight - halfHeight`. -/
def moveWindowDown (s : WHState) : WHState × Option String :=
  match s.mainWindow with
  | none => (s, none)
  | some w =>
      let windowHeight := (s.windowSize.map Prod.snd).getD 0
      let halfHeight := windowHeight / 2
      let newY := min ((s.screenHeight : ℚ) - halfHeight) (s.currentY + (s.step : ℚ))
      let s1 := { s with currentY := newY }
      if w.destroyed then (s1, some "Object has been destroyed")
      else
        ({ s1 with mainWindow := some { w with
            x := (jsRound s1.currentX : ℚ), y := (jsRound newY : ℚ) } }, none)

/-- `WindowHelper.moveWindowUp` (lines 513-529): steps `currentY` by
`this.step`, clamped at `-halfHeight`. -/
def moveWindowUp (s : WHState) : WHState × Option String :=
  match s.mainWindow with
  | none => (s, none)
  | some w =>
      let windowHeight := (s.windowSize.map Prod.snd).getD 0
      let halfHeight := windowHeight / 2
      let newY := max (-halfHeight) (s.currentY - (s.step : ℚ))
      let s1 := { s with currentY := newY }
      if w.destroyed then (s1, some "Object has been destroyed")
      else
        ({ s1 with mainWindow := some { w with
            x := (jsRound s1.currentX : ℚ), y := (jsRound newY : ℚ) } }, none)

/-! ## IPC bridge subscriptions (preload.ts)

`ipcRenderer.on(channel, fn)` registers a listener; the identity of the
listener is the JavaScript function object.  Each evaluation of an
arrow-function expression creates a fresh function object, modelled by
allocating a fresh numeric identifier.  `removeListener(channel, fn)`
removes the most recently added registration of exactly that function
object, if any. -/

/-- The renderer-side listener registry: registered (channel, function
object) pairs in registration order, plus the next fresh function
identifier. -/
structure ListenerReg where
  listeners : List (String × Nat)
  nextId : Nat
  deriving DecidableEq

/-- The empty registry. -/
def emptyReg : ListenerReg := { listeners := [], nextId := 0 }

/-- `ipcRenderer.on(channel, fn)` where `fn` is a freshly evaluated
arrow function: allocates the function object and registers it.
Returns the new function object (so a caller may keep it). -/
def ipcOnFresh (channel : String) (r : ListenerReg) : Nat × ListenerReg :=
  (r.nextId,
   { listeners := r.listeners ++ [(channel, r.nextId)], nextId := r.nextId + 1 })

/-- `ipcRenderer.removeListener(channel, fn)`: removes the most recently
added registration of exactly `(channel, fn)`, if present. -/
def ipcRemoveListener (channel : String) (fn : Nat) (r : ListenerReg) :
    ListenerReg :=
  { r with listeners :=
      (r.listeners.reverse.eraseP
        (fun p => p.1 = channel && p.2 = fn)).reverse }

/-- The function objects invoked when the main process sends on
`channel` (in registration order). -/
def listenersFor (channel : String) (r : ListenerReg) : List Nat :=
  (r.listeners.filter (fun p => p.1 = channel)).map Prod.snd

/-- `onDebugError` (preload.ts, lines 144-150): stores the subscription
closure in a `const`, registers it, and the returned unsubscribe
removes that same closure.  Returns the stored closure (captured by the
unsubscribe handle) and the registry after subscribing. -/
def onDebugErrorSubscribe (r : ListenerReg) : Nat × ListenerReg :=
  ipcOnFresh "debug-error" r

/-- The unsubscribe handle returned by `onDebugError`: removes the
stored subscription closure. -/
def onDebugErrorUnsubscribe (subscription : Nat) (r : ListenerReg) :
    ListenerReg :=
  ipcRemoveListener "debug-error" subscription r

/-- `onScreenshotTaken` (preload.ts, lines 97-106): same correct
pattern as `onDebugError`, on the `"screenshot-taken"` channel. -/
def onScreenshotTakenSubscribe (r : ListenerReg) : Nat × ListenerReg :=
  ipcOnFresh "screenshot-taken" r

/-- The unsubscribe handle returned by `onScreenshotTaken`. -/
def onScreenshotTakenUnsubscribe (subscription : Nat) (r : ListenerReg) :
    ListenerReg :=
  ipcRemoveListener "screenshot-taken" subscription r

/-- `onDebugSuccess` (preload.ts, lines 136-143): registers an inline
arrow function on `"debug-success"` without storing it. -/
def onDebugSuccessSubscribe (r : ListenerReg) : Nat × ListenerReg :=
  ipcOnFresh "debug-success" r

/-- The unsubscribe handle returned by `onDebugSuccess` (lines
138-142): it calls `removeListener` with a NEW arrow-function
expression, i.e. a freshly evaluated function object distinct from the
registered one, exactly as the source writes it. -/
def onDebugSuccessUnsubscribe (r : ListenerReg) : ListenerReg :=
  let freshFn := r.nextId
  ipcRemoveListener "debug-success" freshFn
    { r with nextId := r.nextId + 1 }

/-! ## Screenshot store (ScreenshotHelper)

The ScreenshotHelper source file is not under src/ (only its callers in
main.ts and the renderer are); the store is modelled from the spec. -/

/-- Modelled from the spec: the ScreenshotHelper state.  The spec says
the store "owns an ordered list of captured images (queue + extra
queue), on disk"; `files` is the set of files currently on disk,
`queue`/`extraQueue` the two ordered queues of records. -/
structure ScreenshotStore where
  queue : List String
  extraQueue : List String
  files : List String
  deriving DecidableEq

/-- The store at startup: both queues empty, no files. -/
def emptyStore : ScreenshotStore := { queue := [], extraQueue := [], files := [] }

/-- Modelled from the spec: `capture()` "stores the file under an
app-owned directory, and appends to the queue appropriate to current
mode"; "Screenshot queues are bounded (oldest evicted past a fixed
capacity) and queue order is insertion order".  `toExtra` selects the
extra queue, `maxCount` is the fixed capacity. -/
def captureScreenshot (maxCount : Nat) (toExtra : Bool) (p : String)
    (st : ScreenshotStore) : ScreenshotStore :=
  if toExtra then
    let q := st.extraQueue ++ [p]
    { st with files := p :: st.files
              extraQueue := if maxCount < q.length then q.drop 1 else q }
  else
    let q := st.queue ++ [p]
    { st with files := p :: st.files
              queue := if maxCount < q.length then q.drop 1 else q }

/-- Modelled from the spec: `delete(path) -> success|notFound` and
"Deleting a nonexistent path reports failure without side effects"; a
successful delete removes the file and its queue records
(`AppState.deleteScreenshot`, main.ts lines 201-205, returns its
`{success, error?}` result, modelled as the Boolean). -/
def deleteScreenshot (p : String) (st : ScreenshotStore) :
    ScreenshotStore × Bool :=
  if p ∈ st.queue ∨ p ∈ st.extraQueue then
    ({ queue := st.queue.filter (· ≠ p)
       extraQueue := st.extraQueue.filter (· ≠ p)
       files := st.files.filter (· ≠ p) }, true)
  else
    (st, false)

/-- A capture or delete operation on the store. -/
inductive StoreOp where
  | capture (toExtra : Bool) (p : String)
  | delete (p : String)
  deriving DecidableEq

/-- One operation applied to the store. -/
def runStoreOp (maxCount : Nat) (st : ScreenshotStore) : StoreOp → ScreenshotStore
  | StoreOp.capture toExtra p => captureScreenshot maxCount toExtra p st
  | StoreOp.delete p => (deleteScreenshot p st).1

/-- A sequence of operations applied to the store. -/
def runStoreOps (maxCount : Nat) (ops : List StoreOp)
    (st : ScreenshotStore) : ScreenshotStore :=
  ops.foldl (runStoreOp maxCount) st

/-- Every queued record (in either queue) still has its file on disk. -/
def storeInv (st : ScreenshotStore) : Prop :=
  (∀ p ∈ st.queue, p ∈ st.files) ∧ (∀ p ∈ st.extraQueue, p ∈ st.files)

instance (st : ScreenshotStore) : Decidable (storeInv st) := by
  unfold storeInv
  infer_instance

/-! ## Concrete states used by witnesses and counterexamples -/

/-- A fully populated application state (solutions view, text mode,
cached problem info, non-empty queues, debug pass done, request in
flight). -/
def sampleState : AppStateM :=
  { view := View.solutions
    mode := Mode.text
    textQuery := "abc"
    problemInfo := some { problem_statement := "two sum" }
    hasDebugged := true
    screenshotQueue := ["shot1.png", "shot2.png"]
    extraScreenshotQueue := ["extra1.png"]
    screenshotHelperView := View.solutions
    inFlight := true }

/-- Text mode with a whitespace-only query. -/
def emptyQueryState : AppStateM :=
  { view := View.queue
    mode := Mode.text
    textQuery := "   "
    problemInfo := none
    hasDebugged := false
    screenshotQueue := []
    extraScreenshotQueue := []
    screenshotHelperView := View.queue
    inFlight := false }

/-- A response body wrapped in a fenced marker: three apostrophes, the
language tag `json`, then content. -/
def fencedContent : String :=
  String.mk ([aposChar, aposChar, aposChar] ++ "json ok".data)

/-- A concrete stand-in for `JSON.parse`: accepts exactly the string
left after stripping the fenced marker from `fencedContent`. -/
def toyParse (s : String) : Option Unit :=
  if s = " ok" then some () else none

/-- A live (not destroyed) window at the origin, 800 by 600. -/
def liveWindow : BWindow :=
  { destroyed := false, x := 0, y := 0, width := 800, height := 600
    focused := false, visible := true }

/-- The same window after destruction. -/
def deadWindow : BWindow :=
  { destroyed := true, x := 0, y := 0, width := 800, height := 600
    focused := false, visible := false }

/-- A helper state on a 2000 by 1000 work area with a live window and
the step as initialised by `createWindow`. -/
def moveEx : WHState :=
  { mainWindow := some liveWindow
    isWindowVisible := true
    wasFocused := false
    windowPosition := some (0, 0)
    windowSize := some (800, 600)
    screenWidth := 2000
    screenHeight := 1000
    step := createWindowStep 2000
    currentX := 0
    currentY := 0 }

/-- The same helper state with the window destroyed but the reference
still set (the reference is nulled only by the `closed` event). -/
def destroyedEx : WHState :=
  { moveEx with mainWindow := some deadWindow, isWindowVisible := false }

/-- The same helper state with no window reference at all. -/
def nullWindowEx : WHState :=
  { moveEx with mainWindow := none }

/-! ## Theorems -/

/-- C1: after the Cmd/Ctrl+R reset handler completes, regardless of the
prior application state, both screenshot queues are empty, the cached
problem info is null and the view is the initial `"queue"` view; and
every `"reset-view"` notification it sends is sent at a state already
satisfying all of these. -/
theorem reset_action_atomic (windowOk : Bool) (s : AppStateM) :
    ((resetHandler windowOk s).1.screenshotQueue = [] ∧
     (resetHandler windowOk s).1.extraScreenshotQueue = [] ∧
     (resetHandler windowOk s).1.problemInfo = none ∧
     (resetHandler windowOk s).1.view = View.queue) ∧
    ∀ e ∈ (resetHandler windowOk s).2,
      e.channel = "reset-view" ∧
      e.stateAtSend.screenshotQueue = [] ∧
      e.stateAtSend.extraScreenshotQueue = [] ∧
      e.stateAtSend.problemInfo = none ∧
      e.stateAtSend.view = View.queue := by
  cases windowOk <;>
    simp [resetHandler, clearQueues, setView, cancelOngoingRequests,
      screenshotHelperClearQueues]

/-- Witness for C1 at a fully populated state with a live window. -/
theorem reset_action_atomic_witness :
    (resetHandler true sampleState).1.screenshotQueue = [] ∧
    (resetHandler true sampleState).1.extraScreenshotQueue = [] ∧
    (resetHandler true sampleState).1.problemInfo = none ∧
    (resetHandler true sampleState).1.view = View.queue ∧
    (Emission.mk "reset-view"
      (resetHandler true sampleState).1).stateAtSend.problemInfo = none := by
  have h := reset_action_atomic true sampleState
  have hmem : Emission.mk "reset-view" (resetHandler true sampleState).1
      ∈ (resetHandler true sampleState).2 := by decide
  exact ⟨h.1.1, h.1.2.1, h.1.2.2.1, h.1.2.2.2, (h.2 _ hmem).2.2.2.1⟩

set_option maxRecDepth 8000 in
/-- C2: of the four external LLM call operations, an HTTP 429 maps to
the distinct out-of-credits message in text query processing, problem
extraction and solution generation, but `debugSolutionResponses` maps
it to the generic failure carrying the upstream message (its catch
tests status 401 twice and never 429). -/
theorem http429_mapping :
    processTextQueryCatch err429 = "API Key out of credits" ∧
    extractProblemInfoCatch err429 =
      "API Key out of credits. Please refill your OpenAI API credits and try again." ∧
    generateSolutionResponsesCatch err429 =
      "API Key out of credits. Please refill your OpenAI API credits and try again." ∧
    isOutOfCreditsMessage (processTextQueryCatch err429) = true ∧
    isOutOfCreditsMessage (extractProblemInfoCatch err429) = true ∧
    isOutOfCreditsMessage (generateSolutionResponsesCatch err429) = true ∧
    debugSolutionResponsesCatch err429 =
      "OpenAI API error: Request failed with status code 429" ∧
    isOutOfCreditsMessage (debugSolutionResponsesCatch err429) = false := by
  refine ⟨rfl, rfl, rfl, ?_, ?_, ?_, rfl, ?_⟩ <;> decide

/-- C4: in text mode with a whitespace-only query, the solve shortcut
sends the `NO_QUERY` event, does not invoke `processQuery` (so no
external call is made), and leaves the application state unchanged. -/
theorem solve_empty_text_query_no_call (s : AppStateM)
    (hmode : s.mode = Mode.text) (hquery : jsTrim s.textQuery = "") :
    solveHandler true s = (s, ["processing-no-query"], false) := by
  unfold solveHandler
  rw [hmode]
  simp [hquery]

/-- Witness for C4 at a state whose query is three spaces. -/
theorem solve_empty_text_query_no_call_witness :
    solveHandler true emptyQueryState =
      (emptyQueryState, ["processing-no-query"], false) :=
  solve_empty_text_query_no_call emptyQueryState rfl (by decide)

/-- C5 counterexample: a malformed response wrapped in a fenced marker
is recovered by the text-query path (strip and reparse once), but the
extraction, solution-generation and debug paths surface a failure on
the very same content without any retry — the retry does not apply to
every response-parsing path. -/
theorem parse_retry_not_on_all_paths :
    toyParse fencedContent = none ∧
    toyParse (stripLangMarkers fencedContent) = some () ∧
    processTextQueryParse toyParse fencedContent = Except.ok () ∧
    extractProblemInfoParse toyParse fencedContent = Except.error fencedContent ∧
    generateSolutionResponsesParse toyParse fencedContent = Except.error fencedContent ∧
    debugSolutionResponsesParse toyParse fencedContent = Except.error fencedContent :=
  ⟨rfl, rfl, rfl, rfl, rfl, rfl⟩

/-- C5 amended: when the first parse fails, only the text-query path
strips the fenced markers and parses exactly once more (succeeding when
the reparse succeeds and failing with the stripped text otherwise);
extraction, solution generation and debug surface the failure
immediately with no retry. -/
theorem parse_retry_only_text_path {α : Type} (parse : String → Option α)
    (content : String) (h1 : parse content = none) :
    (∀ v, parse (stripLangMarkers content) = some v →
        processTextQueryParse parse content = Except.ok v) ∧
    (parse (stripLangMarkers content) = none →
        processTextQueryParse parse content =
          Except.error (stripLangMarkers content)) ∧
    extractProblemInfoParse parse content = Except.error content ∧
    generateSolutionResponsesParse parse content = Except.error content ∧
    debugSolutionResponsesParse parse content = Except.error content := by
  refine ⟨?_, ?_, ?_, ?_, ?_⟩ <;>
    simp [processTextQueryParse, extractProblemInfoParse,
      generateSolutionResponsesParse, debugSolutionResponsesParse, h1]
  · intro v hv
    simp [hv]
  · intro hv
    simp [hv]

/-- Witness for the amended C5 at the concrete parser and content. -/
theorem parse_retry_only_text_path_witness :
    processTextQueryParse toyParse fencedContent = Except.ok () ∧
    generateSolutionResponsesParse toyParse fencedContent =
      Except.error fencedContent := by
  have h := parse_retry_only_text_path toyParse fencedContent (by decide)
  exact ⟨h.1 () (by decide), h.2.2.2.1⟩

/-- C10: `clearQueues` empties the queues, clears the problem info and
resets the view, while leaving the mode, the text query, the in-flight
flag and the `hasDebugged` flag unchanged — so the allowed width bound
derived from `hasDebugged` (75% after a debug pass) is the same before
and after a reset. -/
theorem clearQueues_frame (s : AppStateM) (w : Nat) :
    (clearQueues s).mode = s.mode ∧
    (clearQueues s).textQuery = s.textQuery ∧
    (clearQueues s).hasDebugged = s.hasDebugged ∧
    (clearQueues s).inFlight = s.inFlight ∧
    (clearQueues s).screenshotQueue = [] ∧
    (clearQueues s).extraScreenshotQueue = [] ∧
    (clearQueues s).problemInfo = none ∧
    (clearQueues s).view = View.queue ∧
    maxAllowedWidth (clearQueues s).hasDebugged w
      = maxAllowedWidth s.hasDebugged w := by
  simp [clearQueues, setView, screenshotHelperClearQueues]

/-- C3: for every requested (width, height), when a live window exists,
`setWindowDimensions` records a window width of at most
`maxAllowedWidth` (40% of the usable screen width without a debug pass,
75% with one) and a height of at least the 100-pixel floor — both in
the helper's size record and on the window itself. -/
theorem setContentSize_bounds (hasDebugged : Bool) (workAreaWidth : Nat)
    (width height : ℚ) (s : WHState) (w : BWindow)
    (hw : s.mainWindow = some w) (hd : w.destroyed = false) :
    ((setWindowDimensions hasDebugged workAreaWidth width height s).windowSize.getD
        (0, 0)).1 ≤ (maxAllowedWidth hasDebugged workAreaWidth : ℚ) ∧
    (100 : ℚ) ≤ ((setWindowDimensions hasDebugged workAreaWidth width height
        s).windowSize.getD (0, 0)).2 ∧
    ((setWindowDimensions hasDebugged workAreaWidth width height
        s).mainWindow.map BWindow.width).getD 0
      ≤ (maxAllowedWidth hasDebugged workAreaWidth : ℚ) ∧
    (100 : ℚ) ≤ ((setWindowDimensions hasDebugged workAreaWidth width height
        s).mainWindow.map BWindow.height).getD 0 := by
  refine ⟨?_, ?_, ?_, ?_⟩ <;>
    simp only [setWindowDimensions, hw, hd, Bool.false_eq_true, if_false,
      Option.map_some', Option.getD_some] <;>
    first
      | exact min_le_right _ _
      | exact_mod_cast le_max_right (⌈height⌉ : ℤ) 100

/-- Witness for C3 at the degenerate request (0, 0) on a live window. -/
theorem setContentSize_bounds_witness :
    ((setWindowDimensions false 1000 0 0 moveEx).windowSize.getD
        (0, 0)).1 ≤ (maxAllowedWidth false 1000 : ℚ) ∧
    (100 : ℚ) ≤ ((setWindowDimensions false 1000 0 0
        moveEx).windowSize.getD (0, 0)).2 ∧
    ((setWindowDimensions false 1000 0 0
        moveEx).mainWindow.map BWindow.width).getD 0
      ≤ (maxAllowedWidth false 1000 : ℚ) ∧
    (100 : ℚ) ≤ ((setWindowDimensions false 1000 0 0
        moveEx).mainWindow.map BWindow.height).getD 0 :=
  setContentSize_bounds false 1000 0 0 moveEx liveWindow rfl rfl

/-- C6: `onScreenshotTaken` and `onDebugError` unsubscribe the exact
listener they registered (no listener remains), but the unsubscribe
handle returned by `onDebugSuccess` passes a freshly created closure to
`removeListener`, so the registered listener remains and the callback
is still invoked on the next `"debug-success"` notification. -/
theorem debug_success_unsubscribe_leaks :
    listenersFor "screenshot-taken"
      (onScreenshotTakenUnsubscribe (onScreenshotTakenSubscribe emptyReg).1
        (onScreenshotTakenSubscribe emptyReg).2) = [] ∧
    listenersFor "debug-error"
      (onDebugErrorUnsubscribe (onDebugErrorSubscribe emptyReg).1
        (onDebugErrorSubscribe emptyReg).2) = [] ∧
    (onDebugSuccessSubscribe emptyReg).1 = 0 ∧
    listenersFor "debug-success"
      (onDebugSuccessUnsubscribe (onDebugSuccessSubscribe emptyReg).2) = [0] := by
  decide

/-- C7 counterexample: on a 2000 by 1000 work area the step is
initialised from the screen width only, so a vertical move travels 200
pixels (one tenth of the screen width), not the 100 pixels (one tenth
of the screen height) the claim requires — and not because of
clamping, since the claimed 100-pixel target is within the clamp
bound. -/
theorem vertical_move_steps_by_screen_width :
    moveEx.step = createWindowStep moveEx.screenWidth ∧
    moveEx.screenHeight / 10 = 100 ∧
    moveEx.currentY = 0 ∧
    (moveWindowDown moveEx).1.currentY = 200 ∧
    (0 : ℚ) + 100 ≤ (moveEx.screenHeight : ℚ) - 600 / 2 ∧
    (moveWindowDown moveEx).1.currentY ≠ (0 : ℚ) + 100 := by
  refine ⟨rfl, rfl, rfl, ?_, by norm_num [moveEx], ?_⟩ <;>
    · simp [moveWindowDown, moveEx, liveWindow, createWindowStep]
      norm_num [min_def]

/-- C7 amended: every move steps the stored coordinate by the fixed
step of one tenth of the screen width — horizontal and vertical moves
alike — clamped so that at least half the window (by the stored window
size) remains on-screen in the direction of travel. -/
theorem moveBy_step_and_clamp (s : WHState) (w : BWindow)
    (hw : s.mainWindow = some w)
    (hs : s.step = createWindowStep s.screenWidth) :
    (moveWindowRight s).1.currentX
        = min ((s.screenWidth : ℚ) - ((s.windowSize.map Prod.fst).getD 0) / 2)
              (s.currentX + (createWindowStep s.screenWidth : ℚ)) ∧
    (moveWindowRight s).1.currentX
        ≤ (s.screenWidth : ℚ) - ((s.windowSize.map Prod.fst).getD 0) / 2 ∧
    (moveWindowLeft s).1.currentX
        = max (-(((s.windowSize.map Prod.fst).getD 0) / 2))
              (s.currentX - (createWindowStep s.screenWidth : ℚ)) ∧
    -(((s.windowSize.map Prod.fst).getD 0) / 2) ≤ (moveWindowLeft s).1.currentX ∧
    (moveWindowDown s).1.currentY
        = min ((s.screenHeight : ℚ) - ((s.windowSize.map Prod.snd).getD 0) / 2)
              (s.currentY + (createWindowStep s.screenWidth : ℚ)) ∧
    (moveWindowDown s).1.currentY
        ≤ (s.screenHeight : ℚ) - ((s.windowSize.map Prod.snd).getD 0) / 2 ∧
    (moveWindowUp s).1.currentY
        = max (-(((s.windowSize.map Prod.snd).getD 0) / 2))
              (s.currentY - (createWindowStep s.screenWidth : ℚ)) ∧
    -(((s.windowSize.map Prod.snd).getD 0) / 2) ≤ (moveWindowUp s).1.currentY := by
  cases hdes : w.destroyed <;>
    refine ⟨?_, ?_, ?_, ?_, ?_, ?_, ?_, ?_⟩ <;>
    simp only [moveWindowRight, moveWindowLeft, moveWindowDown, moveWindowUp,
      hw, hdes, hs, Bool.false_eq_true, if_false, if_true] <;>
    first
      | rfl
      | exact min_le_left _ _
      | exact le_max_left _ _

/-- Witness for the amended C7 at the concrete 2000 by 1000 state. -/
theorem moveBy_step_and_clamp_witness :
    (moveWindowDown moveEx).1.currentY
        = min ((moveEx.screenHeight : ℚ)
              - ((moveEx.windowSize.map Prod.snd).getD 0) / 2)
              (moveEx.currentY + (createWindowStep moveEx.screenWidth : ℚ)) ∧
    -(((moveEx.windowSize.map Prod.fst).getD 0) / 2)
        ≤ (moveWindowLeft moveEx).1.currentX := by
  have h := moveBy_step_and_clamp moveEx liveWindow rfl rfl
  exact ⟨h.2.2.2.2.1, h.2.2.2.1⟩

/-- Applying one store operation preserves the files-backing invariant
of the screenshot store. -/
theorem storeInv_runStoreOp (maxCount : Nat) (st : ScreenshotStore)
    (op : StoreOp) (h : storeInv st) : storeInv (runStoreOp maxCount st op) := by
  obtain ⟨h1, h2⟩ := h
  cases op with
  | capture toExtra p =>
      cases toExtra <;>
        refine ⟨?_, ?_⟩ <;>
        · intro q hq
          simp only [runStoreOp, captureScreenshot, if_true, if_false,
            Bool.false_eq_true] at hq ⊢
          first
          | (have hq2 : q ∈ st.queue ++ [p] := by
              revert hq
              split <;> intro hq
              · exact List.mem_of_mem_drop hq
              · exact hq
             rcases List.mem_append.mp hq2 with hmem | hmem
             · exact List.mem_cons_of_mem _ (h1 q hmem)
             · simp at hmem
               simp [hmem])
          | (have hq2 : q ∈ st.extraQueue ++ [p] := by
              revert hq
              split <;> intro hq
              · exact List.mem_of_mem_drop hq
              · exact hq
             rcases List.mem_append.mp hq2 with hmem | hmem
             · exact List.mem_cons_of_mem _ (h2 q hmem)
             · simp at hmem
               simp [hmem])
          | exact List.mem_cons_of_mem _ (h1 q hq)
          | exact List.mem_cons_of_mem _ (h2 q hq)
  | delete p =>
      simp only [runStoreOp, deleteScreenshot]
      split
      · refine ⟨?_, ?_⟩ <;>
        · intro q hq
          simp only [List.mem_filter, decide_eq_true_eq] at hq ⊢
          first
          | exact ⟨h1 q hq.1, hq.2⟩
          | exact ⟨h2 q hq.1, hq.2⟩
      · exact ⟨h1, h2⟩

/-- C8: deleting a path that is in neither queue reports failure and
changes nothing, and along every sequence of capture and delete
operations from the empty store, every record still in a queue has its
file on disk (no queue record ever refers to an already-deleted
file). -/
theorem delete_absent_no_side_effects :
    (∀ (st : ScreenshotStore) (p : String),
        p ∉ st.queue → p ∉ st.extraQueue → deleteScreenshot p st = (st, false)) ∧
    (∀ (maxCount : Nat) (ops : List StoreOp),
        storeInv (runStoreOps maxCount ops emptyStore)) := by
  constructor
  · intro st p hq hx
    simp [deleteScreenshot, hq, hx]
  · intro maxCount ops
    suffices h : ∀ st : ScreenshotStore, storeInv st →
        storeInv (runStoreOps maxCount ops st) by
      exact h emptyStore (by refine ⟨?_, ?_⟩ <;> simp [emptyStore])
    induction ops with
    | nil => intro st h; exact h
    | cons op rest ih =>
        intro st h
        exact ih _ (storeInv_runStoreOp maxCount st op h)

/-- Witness for C8: deleting an absent path from the empty store fails
without effect, and a concrete capture-then-delete run keeps the
invariant. -/
theorem delete_absent_no_side_effects_witness :
    deleteScreenshot "missing.png" emptyStore = (emptyStore, false) ∧
    storeInv (runStoreOps 5
      [StoreOp.capture false "a.png", StoreOp.delete "a.png"] emptyStore) := by
  have h := delete_absent_no_side_effects
  exact ⟨h.1 emptyStore "missing.png" (by decide) (by decide), h.2 5 _⟩

/-- C9 counterexample: with the window reference set but the window
destroyed, `moveWindowRight` is not a no-op: it advances the stored x
coordinate from 0 to 200 and its `setPosition` call raises. -/
theorem move_on_destroyed_window_not_noop :
    destroyedEx.currentX = 0 ∧
    (moveWindowRight destroyedEx).1.currentX = 200 ∧
    (moveWindowRight destroyedEx).2 = some "Object has been destroyed" := by
  refine ⟨rfl, ?_, ?_⟩
  · simp [moveWindowRight, destroyedEx, moveEx, deadWindow, createWindowStep]
    norm_num [min_def]
  · simp [moveWindowRight, destroyedEx, moveEx, deadWindow, createWindowStep]

/-- C9 amended: with no window reference every listed operation is a
no-op; with the reference set but the window destroyed, hide, show,
toggle and `setWindowDimensions` are no-ops, while the move operations
check only for a null reference and still mutate the stored
position. -/
theorem window_ops_null_safe (s : WHState) (hasDebugged : Bool)
    (workAreaWidth : Nat) (width height : ℚ) :
    (s.mainWindow = none →
      hideMainWindow s = s ∧
      showMainWindow s = s ∧
      toggleMainWindow s = s ∧
      setWindowDimensions hasDebugged workAreaWidth width height s = s ∧
      moveWindowRight s = (s, none) ∧
      moveWindowLeft s = (s, none) ∧
      moveWindowDown s = (s, none) ∧
      moveWindowUp s = (s, none)) ∧
    (∀ w : BWindow, s.mainWindow = some w → w.destroyed = true →
      hideMainWindow s = s ∧
      showMainWindow s = s ∧
      toggleMainWindow s = s ∧
      setWindowDimensions hasDebugged workAreaWidth width height s = s) := by
  constructor
  · intro h
    simp [hideMainWindow, showMainWindow, toggleMainWindow,
      setWindowDimensions, moveWindowRight, moveWindowLeft, moveWindowDown,
      moveWindowUp, h]
  · intro w hw hd
    simp [hideMainWindow, showMainWindow, toggleMainWindow,
      setWindowDimensions, hw, hd]

/-- Witness for the amended C9 at a state without a window and a state
with a destroyed window. -/
theorem window_ops_null_safe_witness :
    hideMainWindow nullWindowEx = nullWindowEx ∧
    moveWindowRight nullWindowEx = (nullWindowEx, none) ∧
    setWindowDimensions false 1000 0 0 destroyedEx = destroyedEx := by
  have h1 := window_ops_null_safe nullWindowEx false 1000 0 0
  have h2 := window_ops_null_safe destroyedEx false 1000 0 0
  exact ⟨(h1.1 rfl).1, (h1.1 rfl).2.2.2.2.1, (h2.2 deadWindow rfl rfl).2.2.2⟩

end InterviewCoder
